import Mathlib

/-!
Verification of the live location-synchronization subsystem of the
student-dashboard repository.

The definitions below are a shallow embedding of the TypeScript source:

* the `Analytics` React component (socket handler `connectSocket` /
  `socket.on` for `location:update`, `updateMapMarker`, `startTracking`,
  `stopTracking`, `searchNearby`, `getLocationFromCoordinates`), and
* the API layer (`src/api/utils.ts`, `src/api/config.ts`,
  `src/api/endpoints/location.ts`).

JavaScript numbers are modelled as rationals (`Rat`); absent (`undefined`)
fields are modelled as `Option`; JavaScript truthiness of numbers and
strings is modelled explicitly (`0` and the empty string are falsy).
React `useState` cells and the marker map are collected in one record
`AnalyticsState`; each event handler becomes a state-transition function.
-/

/-- JavaScript truthiness of a possibly-undefined number: `undefined`,
`0` (and `NaN`, not modelled) are falsy. -/
def jsTruthyNum (x : Option Rat) : Bool :=
  match x with
  | none => false
  | some v => v != 0

/-- JavaScript truthiness of a possibly-undefined string: `undefined` and
the empty string are falsy. -/
def jsTruthyStr (x : Option String) : Bool :=
  match x with
  | none => false
  | some s => s != ""

/-- JavaScript `a || b` for a possibly-undefined string `a` with a string
default `b`. -/
def jsOrStr (a : Option String) (b : String) : String :=
  match a with
  | some s => if s = "" then b else s
  | none => b

/-- JavaScript `x || undefined` on a number: maps falsy values (`0`) to
`undefined`.  Used for the `altitude`, `heading` and `speed` fields of the
update payloads. -/
def jsOrUndefNum (x : Option Rat) : Option Rat :=
  match x with
  | some v => if v = 0 then none else some v
  | none => none

/-- The `userData` prop handed to the `Analytics` component.  Each field
may be absent on the JavaScript object. -/
structure UserInfo where
  id : Option String
  studentId : Option String
  role : Option String
deriving DecidableEq, Repr

/-- A location payload as carried by a `location:update` push event
(either the nested `data.location` object or the flat fields). -/
structure PushLocation where
  latitude : Rat
  longitude : Rat
  accuracy : Option Rat
  address : Option String
deriving DecidableEq, Repr

/-- A `location:update` push-channel event.  The event may carry the
nested shape (a `location` object) or the flat shape (top-level
`latitude` and `longitude` fields); fields not present on the JavaScript
object are `none`. -/
structure LocationUpdateEvent where
  userId : Option String
  userType : Option String
  nested : Option PushLocation
  latitude : Option Rat
  longitude : Option Rat
  accuracy : Option Rat
  address : Option String
  timestamp : Option String
deriving DecidableEq, Repr

/-- Shape detection of the socket handler (`socket.on` for
`location:update`): first `if (data.location)`, otherwise
`else if (data.latitude && data.longitude)` - note the numeric
truthiness test on the flat fields. -/
def extractLocation (e : LocationUpdateEvent) : Option PushLocation :=
  match e.nested with
  | some loc => some loc
  | none =>
    if jsTruthyNum e.latitude && jsTruthyNum e.longitude then
      some { latitude := e.latitude.getD 0, longitude := e.longitude.getD 0,
             accuracy := e.accuracy, address := e.address }
    else none

/-- `data.userId === userData?.id || data.userId === userData?.studentId`.
JavaScript strict equality on possibly-undefined strings: two undefined
values compare equal. -/
def isCurrentUserOf (userData : Option UserInfo) (eventUserId : Option String) : Bool :=
  (eventUserId == userData.bind (·.id)) || (eventUserId == userData.bind (·.studentId))

/-- User-visible toast messages (`showSuccess` / `showError` call sites);
each constructor stands for one message template in the source. -/
inductive UiMessage where
  /-- `Real-time location tracking connected` -/
  | trackingConnected
  /-- `Location accuracy is low ...` (socket handler, self update with accuracy above 1000) -/
  | lowAccuracy (accuracy : Rat)
  /-- `Latitude must be between -90 and 90` -/
  | latOutOfRange
  /-- `Longitude must be between -180 and 180` -/
  | lngOutOfRange
  /-- `Please enter valid latitude and longitude values` -/
  | invalidNumber
  /-- `Please start location tracking first` (searchNearby precondition) -/
  | startTrackingFirst
  /-- `Location tracking started! ...` -/
  | trackingStarted
  /-- `Location tracking stopped` -/
  | trackingStopped
  /-- `Location set from coordinates!` -/
  | locationSet
  /-- `Map not initialized. Please wait for map to load.` -/
  | mapNotInitialized
  /-- `Found N nearby locations` -/
  | nearbyFound (count : Nat)
  /-- `Failed to search nearby locations` -/
  | nearbySearchFailed
  /-- `Geolocation is not supported by your browser` -/
  | geoUnsupported
  /-- `Failed to get location from coordinates` -/
  | manualLookupFailed
deriving DecidableEq, Repr

/-- Body of a REST `location/update` call and of an outbound
`location:update` socket emit (the `locationData` / `updateData`
object literals; the `deviceInfo` sub-object is constant and elided). -/
structure UpdatePayload where
  latitude : Rat
  longitude : Rat
  accuracy : Option Rat
  altitude : Option Rat
  heading : Option Rat
  speed : Option Rat
  address : Option String
  sessionId : Option String
deriving DecidableEq, Repr

/-- Outbound socket emits issued by the component. -/
inductive SocketEmit where
  | update (payload : UpdatePayload)
  | stop
deriving DecidableEq, Repr

/-- The `LocationData` record stored in the `currentLocation` state cell
(field `recordId` is `_id` in the source). -/
structure LocationData where
  recordId : String
  userId : String
  userType : String
  latitude : Rat
  longitude : Rat
  accuracy : Option Rat
  address : Option String
  isActive : Bool
  lastUpdated : String
deriving DecidableEq, Repr

/-- A `latitude`/`longitude` pair (the `location` sub-object of a nearby
result item). -/
structure GeoPoint where
  latitude : Rat
  longitude : Rat
deriving DecidableEq, Repr

/-- One item of a nearby-locations response. -/
structure NearbyLocationItem where
  userId : String
  userType : String
  location : GeoPoint
  distanceKm : Rat
deriving DecidableEq, Repr

/-- The mutable state of the `Analytics` component: the `useState` cells
used by the tracking logic, the marker map (`markersRef`, reduced to the
coordinates of each marker), the set of geolocation watches registered
with the browser and not yet cleared (`activeWatches`), the toasts shown
and the socket emits issued. -/
structure AnalyticsState where
  markers : List (String × Rat × Rat)
  mapCenter : Option (Rat × Rat)
  currentLocation : Option LocationData
  locationAddress : String
  isTracking : Bool
  watchId : Option Nat
  activeWatches : List Nat
  nearbyLocations : List NearbyLocationItem
  searchRadius : Rat
  isRequestingPermission : Bool
  isLoadingManualLocation : Bool
  toasts : List UiMessage
  emitted : List SocketEmit
deriving DecidableEq, Repr

/-- Initial component state (the `useState` initialisers). -/
def initState : AnalyticsState :=
  { markers := [], mapCenter := none, currentLocation := none,
    locationAddress := "", isTracking := false, watchId := none,
    activeWatches := [], nearbyLocations := [], searchRadius := 1000,
    isRequestingPermission := false, isLoadingManualLocation := false,
    toasts := [], emitted := [] }

/-- `Map.set` semantics on the marker association list: overwrite in
place when the key exists, append otherwise. -/
def setAssoc : List (String × Rat × Rat) → String → Rat × Rat → List (String × Rat × Rat)
  | [], k, v => [(k, v)]
  | (k', v') :: rest, k, v =>
    if k' = k then (k, v) :: rest else (k', v') :: setAssoc rest k v

/-- `Map.has` / `Map.get` on the marker association list. -/
def lookupAssoc : List (String × Rat × Rat) → String → Option (Rat × Rat)
  | [], _ => none
  | (k', v') :: rest, k => if k' = k then some v' else lookupAssoc rest k

/-- `updateMapMarker(userId, location, userType)`: removes and re-adds the
marker for `userId`; for the current user (by its own test
`userId === userData?.id || userId === 'current'`) it also recentres the
map and stores a `LocationData` record without accuracy and address
(the popup markup is presentation-only and elided).  No-op when the map
is not initialised. -/
def updateMapMarker (mapReady : Bool) (userData : Option UserInfo) (now : String)
    (userId : String) (loc : PushLocation) (userType : Option String)
    (s : AnalyticsState) : AnalyticsState :=
  if !mapReady then s else
  let isCU := (userData.bind (·.id) == some userId) || (userId == "current")
  let s1 := { s with markers := setAssoc s.markers userId (loc.latitude, loc.longitude) }
  if isCU then
    { s1 with
      mapCenter := some (loc.latitude, loc.longitude),
      currentLocation := some {
        recordId := userId, userId := userId,
        userType := jsOrStr userType "Student",
        latitude := loc.latitude, longitude := loc.longitude,
        accuracy := none, address := none,
        isActive := true, lastUpdated := now } }
  else s1

/-- The `LocationData` record written by the socket handler when the
update concerns the current user (the `setCurrentLocation` object literal
inside `socket.on` for `location:update`). -/
def selfPushRecord (userData : Option UserInfo) (now : String)
    (e : LocationUpdateEvent) (loc : PushLocation) : LocationData :=
  { recordId := jsOrStr e.userId (jsOrStr (userData.bind (·.id)) "current"),
    userId := jsOrStr e.userId (jsOrStr (userData.bind (·.id)) "current"),
    userType := jsOrStr e.userType "Student",
    latitude := loc.latitude, longitude := loc.longitude,
    accuracy := loc.accuracy, address := loc.address,
    isActive := true,
    lastUpdated := jsOrStr e.timestamp now }

/-- The `socket.on` handler for `location:update`.  After shape
detection, the accuracy gate
`if (isCurrentUser || !accuracy || accuracy < 1000)` decides whether the
update is applied; discarded updates only log a console warning.  For the
current user the handler then stores the full record, updates the address
cell when the event carries a non-empty address, and shows the
low-accuracy warning when `accuracy && accuracy > 1000`.
`now` stands for `new Date().toISOString()`. -/
def onLocationUpdate (userData : Option UserInfo) (now : String) (mapReady : Bool)
    (e : LocationUpdateEvent) (s : AnalyticsState) : AnalyticsState :=
  match extractLocation e with
  | none => s
  | some loc =>
    let isCU := isCurrentUserOf userData e.userId
    if isCU || !jsTruthyNum loc.accuracy || decide (loc.accuracy.getD 0 < 1000) then
      let markerId := jsOrStr e.userId (jsOrStr (userData.bind (·.id)) "current")
      let s1 := updateMapMarker mapReady userData now markerId loc
        (some (jsOrStr e.userType "Student")) s
      if isCU then
        let s2 := { s1 with currentLocation := some (selfPushRecord userData now e loc) }
        let s3 :=
          if jsTruthyStr loc.address then
            { s2 with locationAddress := loc.address.getD "" }
          else s2
        if jsTruthyNum loc.accuracy && decide (1000 < loc.accuracy.getD 0) then
          { s3 with toasts := s3.toasts ++ [UiMessage.lowAccuracy (loc.accuracy.getD 0)] }
        else s3
      else s1
    else s

/-- C1: a push-channel location update whose subject is not the current
user and whose accuracy is present and worse than 1000 meters is
discarded entirely: the component state (markers, current location,
address, toasts, everything) is exactly unchanged, so the displayed peer
position does not move and no entry is created for a previously unseen
peer. -/
theorem C1_peer_low_accuracy_discarded
    (userData : Option UserInfo) (now : String) (mapReady : Bool)
    (e : LocationUpdateEvent) (s : AnalyticsState) (loc : PushLocation) (a : Rat)
    (hext : extractLocation e = some loc)
    (hcu : isCurrentUserOf userData e.userId = false)
    (hacc : loc.accuracy = some a)
    (hbad : 1000 < a) :
    onLocationUpdate userData now mapReady e s = s := by
  have hne : a ≠ 0 := by
    intro h0
    rw [h0] at hbad
    exact absurd hbad (by norm_num)
  have hnlt : ¬ (a < 1000) := not_lt.mpr (le_of_lt hbad)
  unfold onLocationUpdate
  rw [hext]
  simp only [hcu, hacc, jsTruthyNum]
  simp [hne, hnlt]

/-- Concrete instance of `C1_peer_low_accuracy_discarded`: a peer reports
`(13, 78)` with accuracy `1500` while no prior peer entry exists; the
state is unchanged, so in particular no peer entry is created. -/
theorem C1_peer_low_accuracy_discarded_witness :
    onLocationUpdate (some { id := some "u1", studentId := none, role := some "Student" })
      "t0" true
      { userId := some "peer9", userType := some "Student", nested := none,
        latitude := some 13, longitude := some 78,
        accuracy := some 1500, address := none, timestamp := none }
      initState = initState :=
  C1_peer_low_accuracy_discarded
    (some { id := some "u1", studentId := none, role := some "Student" })
    "t0" true
    { userId := some "peer9", userType := some "Student", nested := none,
      latitude := some 13, longitude := some 78,
      accuracy := some 1500, address := none, timestamp := none }
    initState
    { latitude := 13, longitude := 78, accuracy := some 1500, address := none }
    1500 (by decide) (by decide) rfl (by norm_num)

/-- Helper: `updateMapMarker` never touches the toast list. -/
theorem updateMapMarker_toasts (mapReady : Bool) (userData : Option UserInfo)
    (now : String) (userId : String) (loc : PushLocation) (userType : Option String)
    (s : AnalyticsState) :
    (updateMapMarker mapReady userData now userId loc userType s).toasts = s.toasts := by
  unfold updateMapMarker
  rcases mapReady with _ | _
  · rfl
  · simp only [Bool.not_true, Bool.false_eq_true, if_false]
    split <;> rfl

/-- C2: a push-channel location update whose subject is the current user
is always applied to the self entry (`currentLocation` receives the
record built from the event, whose coordinates and accuracy are the ones
of the event), regardless of accuracy; the low-accuracy degradation
warning is surfaced exactly when the accuracy exceeds 1000 meters. -/
theorem C2_self_update_always_applied
    (userData : Option UserInfo) (now : String) (mapReady : Bool)
    (e : LocationUpdateEvent) (s : AnalyticsState) (loc : PushLocation)
    (hext : extractLocation e = some loc)
    (hcu : isCurrentUserOf userData e.userId = true) :
    (onLocationUpdate userData now mapReady e s).currentLocation
        = some (selfPushRecord userData now e loc)
    ∧ (selfPushRecord userData now e loc).latitude = loc.latitude
    ∧ (selfPushRecord userData now e loc).longitude = loc.longitude
    ∧ (selfPushRecord userData now e loc).accuracy = loc.accuracy
    ∧ (∀ a, loc.accuracy = some a → 1000 < a →
        (onLocationUpdate userData now mapReady e s).toasts
          = s.toasts ++ [UiMessage.lowAccuracy a])
    ∧ ((∀ a, loc.accuracy = some a → a ≤ 1000) →
        (onLocationUpdate userData now mapReady e s).toasts = s.toasts) := by
  unfold onLocationUpdate
  rw [hext]
  simp only [hcu, Bool.true_or, if_true]
  refine ⟨?_, rfl, rfl, rfl, ?_, ?_⟩
  · split <;> split <;> rfl
  · intro a ha hgt
    have hne : a ≠ 0 := ne_of_gt (lt_trans (by norm_num) hgt)
    have hb : (jsTruthyNum loc.accuracy && decide (1000 < loc.accuracy.getD 0)) = true := by
      rw [ha]
      simp only [jsTruthyNum, Option.getD_some, Bool.and_eq_true, bne_iff_ne, ne_eq,
        decide_eq_true_eq]
      exact ⟨hne, hgt⟩
    simp only [hb]
    simp only [if_true]
    simp only [ha, Option.getD_some]
    split <;> simp [updateMapMarker_toasts]
  · intro hle
    have hcond : (jsTruthyNum loc.accuracy && decide (1000 < loc.accuracy.getD 0)) = false := by
      rcases hacc : loc.accuracy with _ | a
      · rfl
      · have := hle a hacc
        simp [jsTruthyNum, not_lt.mpr this]
    simp only [hcond, Bool.false_eq_true, if_false]
    split <;> simp [updateMapMarker_toasts]

/-- Concrete instance of `C2_self_update_always_applied`: the current
user reports `(22, 88)` with accuracy `15`; the self entry receives that
position and no degradation warning is raised. -/
theorem C2_self_update_always_applied_witness :
    (onLocationUpdate (some { id := some "u1", studentId := none, role := some "Student" })
        "t0" true
        { userId := some "u1", userType := some "Student",
          nested := some { latitude := 22, longitude := 88,
                           accuracy := some 15, address := some "Kolkata" },
          latitude := none, longitude := none, accuracy := none, address := none,
          timestamp := none }
        initState).currentLocation
      = some (selfPushRecord
          (some { id := some "u1", studentId := none, role := some "Student" }) "t0"
          { userId := some "u1", userType := some "Student",
            nested := some { latitude := 22, longitude := 88,
                             accuracy := some 15, address := some "Kolkata" },
            latitude := none, longitude := none, accuracy := none, address := none,
            timestamp := none }
          { latitude := 22, longitude := 88, accuracy := some 15, address := some "Kolkata" })
    ∧ (onLocationUpdate (some { id := some "u1", studentId := none, role := some "Student" })
        "t0" true
        { userId := some "u1", userType := some "Student",
          nested := some { latitude := 22, longitude := 88,
                           accuracy := some 15, address := some "Kolkata" },
          latitude := none, longitude := none, accuracy := none, address := none,
          timestamp := none }
        initState).toasts = initState.toasts := by
  have h := C2_self_update_always_applied
    (some { id := some "u1", studentId := none, role := some "Student" }) "t0" true
    { userId := some "u1", userType := some "Student",
      nested := some { latitude := 22, longitude := 88,
                       accuracy := some 15, address := some "Kolkata" },
      latitude := none, longitude := none, accuracy := none, address := none,
      timestamp := none }
    initState
    { latitude := 22, longitude := 88, accuracy := some 15, address := some "Kolkata" }
    rfl (by decide)
  refine ⟨h.1, h.2.2.2.2.2 ?_⟩
  intro a ha
  cases ha
  norm_num

/-- C10: a flat-shape push event (no nested `location` object) whose
latitude or longitude equals `0` fails the numeric-truthiness presence
test `data.latitude && data.longitude`; the event is ignored entirely
and the state is unchanged, so equator and prime-meridian positions are
dropped. -/
theorem C10_flat_zero_coordinate_dropped
    (userData : Option UserInfo) (now : String) (mapReady : Bool)
    (e : LocationUpdateEvent) (s : AnalyticsState)
    (hnest : e.nested = none)
    (hzero : e.latitude = some 0 ∨ e.longitude = some 0) :
    onLocationUpdate userData now mapReady e s = s := by
  have hext : extractLocation e = none := by
    unfold extractLocation
    rw [hnest]
    rcases hzero with h | h <;> simp [h, jsTruthyNum]
  unfold onLocationUpdate
  rw [hext]

/-- Concrete instance of `C10_flat_zero_coordinate_dropped`: a flat
event at latitude `0` (the equator) with a valid longitude is ignored
and the state does not change. -/
theorem C10_flat_zero_coordinate_dropped_witness :
    onLocationUpdate (some { id := some "u1", studentId := none, role := some "Student" })
      "t0" true
      { userId := some "peer2", userType := some "Student", nested := none,
        latitude := some 0, longitude := some 77,
        accuracy := some 10, address := none, timestamp := none }
      initState = initState :=
  C10_flat_zero_coordinate_dropped
    (some { id := some "u1", studentId := none, role := some "Student" })
    "t0" true
    { userId := some "peer2", userType := some "Student", nested := none,
      latitude := some 0, longitude := some 77,
      accuracy := some 10, address := none, timestamp := none }
    initState rfl (Or.inl rfl)

/-- A geolocation fix (`position.coords`). -/
structure GeoFix where
  latitude : Rat
  longitude : Rat
  accuracy : Option Rat
  altitude : Option Rat
  heading : Option Rat
  speed : Option Rat
deriving DecidableEq, Repr

/-- Outcome of one REST call as seen by the component: the promise
resolved with `success: true`, resolved with `success: false`, or
rejected (an exception reached the `catch` block). -/
inductive RestOutcome where
  | ok
  | failResponse
  | thrown
deriving DecidableEq, Repr

/-- The `locationData` / `updateData` object literal built from a fix:
`altitude`, `heading` and `speed` go through `x || undefined`
(`deviceInfo` is constant and elided). -/
def buildUpdatePayload (fix : GeoFix) (address : String) (sessionId : Option String) :
    UpdatePayload :=
  { latitude := fix.latitude, longitude := fix.longitude,
    accuracy := fix.accuracy,
    altitude := jsOrUndefNum fix.altitude,
    heading := jsOrUndefNum fix.heading,
    speed := jsOrUndefNum fix.speed,
    address := some address, sessionId := sessionId }

/-- The synchronous part of `startTracking` before the permission
callback fires: the geolocation-support check and
`setIsRequestingPermission(true)`.  Note that there is no check of
`isTracking` or `watchId` here. -/
def startTrackingRequest (geoSupported : Bool) (s : AnalyticsState) : AnalyticsState :=
  if !geoSupported then { s with toasts := s.toasts ++ [UiMessage.geoUnsupported] }
  else { s with isRequestingPermission := true }

/-- The success callback of the initial `getCurrentPosition` inside
`startTracking`: clears the permission flag, sets `isTracking`, stores
the resolved address, pins and centres the marker when the map is ready,
then (in each of the three REST-outcome branches: success, error
response, exception) stores the full `LocationData`, emits the socket
update when connected, and shows the started toast; finally registers
the continuous `watchPosition` and remembers its id in `watchId`
(`freshWatch` is the handle returned by the browser).  The previous
watch handle, if any, is not cleared. -/
def startTrackingOnFix (userData : Option UserInfo) (now : String)
    (mapReady socketConnected : Bool) (sessionId : Option String)
    (fix : GeoFix) (address : String) (rest : RestOutcome)
    (freshWatch : Nat) (s : AnalyticsState) : AnalyticsState :=
  let userId := jsOrStr (userData.bind (·.id)) "current"
  let s1 := { s with isRequestingPermission := false, isTracking := true,
                     locationAddress := address }
  let s2 :=
    if mapReady then
      { s1 with markers := setAssoc s1.markers userId (fix.latitude, fix.longitude),
                mapCenter := some (fix.latitude, fix.longitude) }
    else s1
  let payload := buildUpdatePayload fix address sessionId
  let newLoc : LocationData :=
    { recordId := userId, userId := userId,
      userType := jsOrStr (userData.bind (·.role)) "Student",
      latitude := fix.latitude, longitude := fix.longitude,
      accuracy := fix.accuracy, address := some address,
      isActive := true, lastUpdated := now }
  let s3 :=
    match rest with
    | .ok =>
      { s2 with currentLocation := some newLoc,
                emitted := s2.emitted ++
                  (if socketConnected then [SocketEmit.update payload] else []),
                toasts := s2.toasts ++ [UiMessage.trackingStarted] }
    | .failResponse =>
      { s2 with currentLocation := some newLoc,
                emitted := s2.emitted ++
                  (if socketConnected then [SocketEmit.update payload] else []),
                toasts := s2.toasts ++ [UiMessage.trackingStarted] }
    | .thrown =>
      { s2 with currentLocation := some newLoc,
                emitted := s2.emitted ++
                  (if socketConnected then [SocketEmit.update payload] else []),
                toasts := s2.toasts ++ [UiMessage.trackingStarted] }
  { s3 with watchId := some freshWatch, activeWatches := freshWatch :: s3.activeWatches }

/-- The part of the continuous `watchPosition` callback that runs before
the REST call: store the resolved address and, when the map is ready and
a marker for the user exists, move it. -/
def watchCallbackPreRest (userData : Option UserInfo) (mapReady : Bool)
    (fix : GeoFix) (address : String) (s : AnalyticsState) : AnalyticsState :=
  let s1 := { s with locationAddress := address }
  if mapReady then
    let userId := jsOrStr (userData.bind (·.id)) "current"
    match lookupAssoc s1.markers userId with
    | some _ => { s1 with markers := setAssoc s1.markers userId (fix.latitude, fix.longitude) }
    | none => s1
  else s1

/-- The `LocationData` record stored by the watch callback after the REST
call resolves (the `setCurrentLocation` object literal of the callback). -/
def watchSelfRecord (userId : String) (userData : Option UserInfo) (now : String)
    (fix : GeoFix) (address : String) : LocationData :=
  { recordId := userId, userId := userId,
    userType := jsOrStr (userData.bind (·.role)) "Student",
    latitude := fix.latitude, longitude := fix.longitude,
    accuracy := fix.accuracy, address := some address,
    isActive := true, lastUpdated := now }

/-- The continuation of the `watchPosition` callback after
`await locationApi.updateLocation(updateData)` resolves: on success the
socket update is emitted first and the local state is stored afterwards;
on an error response or an exception the local state is stored first and
the socket update is emitted afterwards.  In every branch the local
state IS stored - the code does not consult `isTracking` or `watchId`
before applying the late REST completion. -/
def watchCallbackPostRest (userId : String) (userData : Option UserInfo) (now : String)
    (socketConnected : Bool) (fix : GeoFix) (address : String)
    (payload : UpdatePayload) (rest : RestOutcome) (s : AnalyticsState) : AnalyticsState :=
  match rest with
  | .ok =>
    let s1 := { s with emitted := s.emitted ++
        (if socketConnected then [SocketEmit.update payload] else []) }
    { s1 with currentLocation := some (watchSelfRecord userId userData now fix address) }
  | .failResponse =>
    let s1 :=
      { s with currentLocation := some (watchSelfRecord userId userData now fix address) }
    { s1 with emitted := s1.emitted ++
        (if socketConnected then [SocketEmit.update payload] else []) }
  | .thrown =>
    let s1 :=
      { s with currentLocation := some (watchSelfRecord userId userData now fix address) }
    { s1 with emitted := s1.emitted ++
        (if socketConnected then [SocketEmit.update payload] else []) }

/-- `stopTracking()`: clears the geolocation watch (if any), resets
`isTracking`, awaits the REST stop call (its result only drives console
logging), always emits the socket stop event when connected, and shows
the stopped toast. -/
def stopTracking (stopRest : RestOutcome) (socketConnected : Bool)
    (s : AnalyticsState) : AnalyticsState :=
  let s1 :=
    match s.watchId with
    | some w => { s with activeWatches := s.activeWatches.filter (· ≠ w), watchId := none }
    | none => s
  let s2 := { s1 with isTracking := false }
  let s3 := { s2 with emitted := s2.emitted ++
      (if socketConnected then [SocketEmit.stop] else []) }
  { s3 with toasts := s3.toasts ++ [UiMessage.trackingStopped] }

/-- A concrete active-session state used to exhibit the stale-response
behaviour: tracking is on, one watch is registered, and a self position
is displayed. -/
def demoActiveState : AnalyticsState :=
  { initState with
    isTracking := true,
    watchId := some 1,
    activeWatches := [1],
    currentLocation := some
      { recordId := "u1", userId := "u1", userType := "Student",
        latitude := 22, longitude := 88, accuracy := some 15,
        address := some "A", isActive := true, lastUpdated := "t0" } }

/-- The fix delivered by the in-flight update of the C3 scenario. -/
def demoLateFix : GeoFix :=
  { latitude := 23, longitude := 89, accuracy := some 10,
    altitude := none, heading := none, speed := none }

/-- C3 counterexample: the claim states that a REST position-update
completion arriving after `stopTracking()` does not mutate the
tracked-subject state because the implementation checks session-active
state first.  Concretely: a session is stopped (`isTracking = false`),
yet the continuation of an in-flight update call still overwrites
`currentLocation` - no session-state check exists in the callback. -/
theorem C3_stale_rest_counterexample :
    ((stopTracking RestOutcome.ok true demoActiveState).isTracking = false)
    ∧ (watchCallbackPostRest "u1"
        (some { id := some "u1", studentId := none, role := some "Student" }) "t1" true
        demoLateFix "B" (buildUpdatePayload demoLateFix "B" none) RestOutcome.ok
        (stopTracking RestOutcome.ok true demoActiveState)).currentLocation
      ≠ (stopTracking RestOutcome.ok true demoActiveState).currentLocation := by
  constructor
  · rfl
  · decide

/-- C3 amended: `stopTracking` does set the session inactive, but the
continuation of an in-flight REST position update applies its local
mutation unconditionally - for every state, including one on which
`stopTracking` has just completed, and for every REST outcome, the
callback overwrites `currentLocation` with the new fix; no
session-active check guards it. -/
theorem C3_stale_rest_applied_after_stop
    (userId now address : String) (userData : Option UserInfo)
    (socketConnected sc : Bool) (fix : GeoFix) (payload : UpdatePayload)
    (rest stopRest : RestOutcome) (s : AnalyticsState) :
    (stopTracking stopRest sc s).isTracking = false
    ∧ (watchCallbackPostRest userId userData now socketConnected fix address payload rest
        (stopTracking stopRest sc s)).currentLocation
      = some (watchSelfRecord userId userData now fix address) := by
  constructor
  · rfl
  · cases rest <;> rfl

/-- C4 counterexample: the claim states that a second `startTracking()`
while a session is Active is a no-op guarded by a session-state check,
so at most one watch handle exists afterwards.  Concretely: two
successful starts with no intervening stop leave TWO registered watch
handles (the browser watch of the first start is never cleared), so the
claim fails. -/
theorem C4_double_start_counterexample :
    ¬ ((startTrackingOnFix
          (some { id := some "u1", studentId := none, role := some "Student" }) "t1"
          true true none
          { latitude := 22, longitude := 88, accuracy := some 15,
            altitude := none, heading := none, speed := none }
          "addr" RestOutcome.ok 2
          (startTrackingRequest true
            (startTrackingOnFix
              (some { id := some "u1", studentId := none, role := some "Student" }) "t0"
              true true none
              { latitude := 22, longitude := 88, accuracy := some 15,
                altitude := none, heading := none, speed := none }
              "addr" RestOutcome.ok 1
              (startTrackingRequest true initState)))).activeWatches.length ≤ 1) := by
  decide

/-- C4 amended: `startTracking` has no session-state guard; every
successful start registers a fresh browser watch and overwrites
`watchId`, so two successful starts without an intervening stop leave
two registered watch handles, of which only the second is remembered. -/
theorem C4_double_start_two_watches
    (userData : Option UserInfo) (nowA nowB addrA addrB : String)
    (mapReadyA mapReadyB connA connB : Bool) (sidA sidB : Option String)
    (fixA fixB : GeoFix) (restA restB : RestOutcome) (w1 w2 : Nat)
    (s : AnalyticsState) :
    (startTrackingOnFix userData nowB mapReadyB connB sidB fixB addrB restB w2
        (startTrackingOnFix userData nowA mapReadyA connA sidA fixA addrA restA w1 s)).activeWatches
      = w2 :: w1 :: s.activeWatches
    ∧ (startTrackingOnFix userData nowB mapReadyB connB sidB fixB addrB restB w2
        (startTrackingOnFix userData nowA mapReadyA connA sidA fixA addrA restA w1 s)).watchId
      = some w2 := by
  cases restA <;> cases restB <;> cases mapReadyA <;> cases mapReadyB <;> exact ⟨rfl, rfl⟩

/-- Observable steps of one self-position-fix propagation, in program
order. -/
inductive SyncAction where
  /-- the reverse-geocode lookup is issued and awaited -/
  | geocodeLookup
  /-- `setLocationAddress` -/
  | setAddress
  /-- the map marker is created or moved -/
  | moveMarker
  /-- `locationApi.updateLocation` is invoked -/
  | restCall
  /-- the REST promise settles (response or exception) -/
  | restResolved
  /-- `setCurrentLocation` - the local tracked-subject update -/
  | setLocalState
  /-- `socket.emit` of the outbound update -/
  | pushEmit
  /-- a toast is shown -/
  | toastShown
  /-- `watchPosition` is registered -/
  | watchStart
deriving DecidableEq, Repr

/-- Ordered action trace of the initial-fix path of `startTracking`
(the body of the `getCurrentPosition` success callback): address lookup,
marker pin, then `await updateLocation`, and only after it settles the
local state write, the socket emit and the toast; the continuous watch
is registered last. -/
def initialFixTrace (mapReady socketConnected : Bool) (rest : RestOutcome) :
    List SyncAction :=
  [SyncAction.geocodeLookup, SyncAction.setAddress]
    ++ (if mapReady then [SyncAction.moveMarker] else [])
    ++ [SyncAction.restCall, SyncAction.restResolved]
    ++ (match rest with
        | .ok =>
          [SyncAction.setLocalState]
            ++ (if socketConnected then [SyncAction.pushEmit] else [])
            ++ [SyncAction.toastShown]
        | .failResponse =>
          [SyncAction.setLocalState]
            ++ (if socketConnected then [SyncAction.pushEmit] else [])
            ++ [SyncAction.toastShown]
        | .thrown =>
          [SyncAction.setLocalState]
            ++ (if socketConnected then [SyncAction.pushEmit] else [])
            ++ [SyncAction.toastShown])
    ++ [SyncAction.watchStart]

/-- Ordered action trace of one continuous `watchPosition` callback:
address lookup, marker move, then `await updateLocation`; after it
settles, on success the emit precedes the local state write, on an error
response or exception the local state write precedes the emit. -/
def watchFixTrace (mapReady markerExists socketConnected : Bool) (rest : RestOutcome) :
    List SyncAction :=
  [SyncAction.geocodeLookup, SyncAction.setAddress]
    ++ (if mapReady && markerExists then [SyncAction.moveMarker] else [])
    ++ [SyncAction.restCall, SyncAction.restResolved]
    ++ (match rest with
        | .ok =>
          (if socketConnected then [SyncAction.pushEmit] else [])
            ++ [SyncAction.setLocalState]
        | .failResponse =>
          [SyncAction.setLocalState]
            ++ (if socketConnected then [SyncAction.pushEmit] else [])
        | .thrown =>
          [SyncAction.setLocalState]
            ++ (if socketConnected then [SyncAction.pushEmit] else []))

/-- C5 counterexample: the claim states that on every self fix the local
state is updated optimistically BEFORE either network call resolves and
that the REST call and the push emit are issued concurrently.
Concretely, in the continuous-watch callback with the REST call
succeeding, the local state write and the push emit both come strictly
after the REST promise settles, so neither is optimistic nor concurrent
with the REST call. -/
theorem C5_not_optimistic_counterexample :
    ¬ ((watchFixTrace true true true RestOutcome.ok).indexOf SyncAction.setLocalState
        < (watchFixTrace true true true RestOutcome.ok).indexOf SyncAction.restResolved)
    ∧ ¬ ((watchFixTrace true true true RestOutcome.ok).indexOf SyncAction.pushEmit
        < (watchFixTrace true true true RestOutcome.ok).indexOf SyncAction.restCall) := by
  constructor <;> decide

/-- C5 amended: on every self fix (initial or continuous), the local
tracked-subject update and the push-channel emit are sequenced strictly
AFTER the REST update call resolves; they are nevertheless performed in
every REST outcome - success, error response, or thrown failure - so a
REST failure never suppresses (blocks) or rolls back the local update or
the push emit, though it does delay them. -/
theorem C5_sequenced_after_rest (mapReady markerExists : Bool) (rest : RestOutcome) :
    (SyncAction.setLocalState ∈ watchFixTrace mapReady markerExists true rest
      ∧ SyncAction.pushEmit ∈ watchFixTrace mapReady markerExists true rest
      ∧ (watchFixTrace mapReady markerExists true rest).indexOf SyncAction.restResolved
          < (watchFixTrace mapReady markerExists true rest).indexOf SyncAction.setLocalState
      ∧ (watchFixTrace mapReady markerExists true rest).indexOf SyncAction.restResolved
          < (watchFixTrace mapReady markerExists true rest).indexOf SyncAction.pushEmit)
    ∧ (SyncAction.setLocalState ∈ initialFixTrace mapReady true rest
      ∧ SyncAction.pushEmit ∈ initialFixTrace mapReady true rest
      ∧ (initialFixTrace mapReady true rest).indexOf SyncAction.restResolved
          < (initialFixTrace mapReady true rest).indexOf SyncAction.setLocalState
      ∧ (initialFixTrace mapReady true rest).indexOf SyncAction.restResolved
          < (initialFixTrace mapReady true rest).indexOf SyncAction.pushEmit) := by
  cases rest <;> cases mapReady <;> cases markerExists <;> decide

/-- Network calls issued by the component (REST and reverse-geocode). -/
inductive NetAction where
  /-- reverse-geocode HTTP lookup -/
  | geocode (lat lng : Rat)
  /-- `locationApi.updateLocation` -/
  | restUpdate (payload : UpdatePayload)
  /-- `locationApi.getNearbyLocations lat lng radius` -/
  | restNearby (lat lng radius : Rat)
deriving DecidableEq, Repr

/-- Result classification of `getLocationFromCoordinates`. -/
inductive ManualOutcome where
  /-- `parseFloat` produced `NaN` for latitude or longitude -/
  | invalidInput
  /-- latitude outside [-90, 90] -/
  | invalidLat
  /-- longitude outside [-180, 180] -/
  | invalidLng
  /-- valid coordinates but the map is not initialised -/
  | mapNotReady
  /-- the position was applied -/
  | locationSet
deriving DecidableEq, Repr

/-- Both range violations surface the InvalidCoordinate validation
error of the specification. -/
def isInvalidCoordinate : ManualOutcome → Bool
  | .invalidLat => true
  | .invalidLng => true
  | _ => false

/-- `getLocationFromCoordinates()`: parses the manual inputs (a `none`
stands for `NaN`), validates the ranges BEFORE any state change or
network call, and on success stores address, marker, centre and
`currentLocation`, issues the REST update and the socket emit, and
reports success (the REST result only drives console logging).
`isLoadingManualLocation` is set and reset within the call, hence
unchanged. -/
def getLocationFromCoordinates (userData : Option UserInfo) (now : String)
    (mapReady socketConnected : Bool) (sessionId : Option String)
    (lat lng : Option Rat) (address : String) (rest : RestOutcome)
    (s : AnalyticsState) : AnalyticsState × List NetAction × ManualOutcome :=
  match lat, lng with
  | some la, some lo =>
    if la < -90 ∨ la > 90 then
      ({ s with toasts := s.toasts ++ [UiMessage.latOutOfRange] }, [],
       ManualOutcome.invalidLat)
    else if lo < -180 ∨ lo > 180 then
      ({ s with toasts := s.toasts ++ [UiMessage.lngOutOfRange] }, [],
       ManualOutcome.invalidLng)
    else
      let userId := jsOrStr (userData.bind (·.id)) "current"
      let s1 := { s with locationAddress := address }
      if mapReady then
        let newLoc : LocationData :=
          { recordId := userId, userId := userId,
            userType := jsOrStr (userData.bind (·.role)) "Student",
            latitude := la, longitude := lo, accuracy := none,
            address := some address, isActive := true, lastUpdated := now }
        let payload : UpdatePayload :=
          { latitude := la, longitude := lo, accuracy := none, altitude := none,
            heading := none, speed := none, address := some address,
            sessionId := sessionId }
        let s2 := { s1 with markers := setAssoc s1.markers userId (la, lo),
                            mapCenter := some (la, lo),
                            currentLocation := some newLoc }
        let s3 := { s2 with
                    emitted := s2.emitted ++
                      (if socketConnected then [SocketEmit.update payload] else []),
                    toasts := s2.toasts ++ [UiMessage.locationSet] }
        (s3, [NetAction.geocode la lo, NetAction.restUpdate payload],
         ManualOutcome.locationSet)
      else
        ({ s1 with toasts := s1.toasts ++ [UiMessage.mapNotInitialized] },
         [NetAction.geocode la lo], ManualOutcome.mapNotReady)
  | _, _ =>
    ({ s with toasts := s.toasts ++ [UiMessage.invalidNumber] }, [],
     ManualOutcome.invalidInput)

/-- C6: submitting a manual position with a latitude outside [-90, 90]
or a longitude outside [-180, 180] yields the InvalidCoordinate
validation error, performs no network call at all (not even the geocode
lookup), and leaves the tracked-subject state (current location,
markers, emitted events, address, peers) unchanged; the boundary values
-90, 90, -180 and 180 pass validation and reach the propagation path. -/
theorem C6_manual_position_validation
    (userData : Option UserInfo) (now : String) (mapReady socketConnected : Bool)
    (sessionId : Option String) (la lo : Rat) (address : String) (rest : RestOutcome)
    (s : AnalyticsState)
    (h : (la < -90 ∨ la > 90) ∨ (lo < -180 ∨ lo > 180)) :
    ((getLocationFromCoordinates userData now mapReady socketConnected sessionId
        (some la) (some lo) address rest s).2.1 = []
      ∧ isInvalidCoordinate
          (getLocationFromCoordinates userData now mapReady socketConnected sessionId
            (some la) (some lo) address rest s).2.2 = true
      ∧ (getLocationFromCoordinates userData now mapReady socketConnected sessionId
          (some la) (some lo) address rest s).1.currentLocation = s.currentLocation
      ∧ (getLocationFromCoordinates userData now mapReady socketConnected sessionId
          (some la) (some lo) address rest s).1.markers = s.markers
      ∧ (getLocationFromCoordinates userData now mapReady socketConnected sessionId
          (some la) (some lo) address rest s).1.emitted = s.emitted
      ∧ (getLocationFromCoordinates userData now mapReady socketConnected sessionId
          (some la) (some lo) address rest s).1.locationAddress = s.locationAddress
      ∧ (getLocationFromCoordinates userData now mapReady socketConnected sessionId
          (some la) (some lo) address rest s).1.nearbyLocations = s.nearbyLocations)
    ∧ (getLocationFromCoordinates none "t" true true none
        (some (-90)) (some (-180)) "X" RestOutcome.ok initState).2.2
        = ManualOutcome.locationSet
    ∧ (getLocationFromCoordinates none "t" true true none
        (some 90) (some 180) "X" RestOutcome.ok initState).2.2
        = ManualOutcome.locationSet := by
  refine ⟨?_, by decide, by decide⟩
  rcases h with hla | hlo
  · simp only [getLocationFromCoordinates]
    rw [if_pos hla]
    exact ⟨rfl, rfl, rfl, rfl, rfl, rfl, rfl⟩
  · by_cases hla : la < -90 ∨ la > 90
    · simp only [getLocationFromCoordinates]
      rw [if_pos hla]
      exact ⟨rfl, rfl, rfl, rfl, rfl, rfl, rfl⟩
    · simp only [getLocationFromCoordinates]
      rw [if_neg hla, if_pos hlo]
      exact ⟨rfl, rfl, rfl, rfl, rfl, rfl, rfl⟩

/-- Concrete instance of `C6_manual_position_validation`: latitude 95 is
rejected with no network call and no tracked-subject change. -/
theorem C6_manual_position_validation_witness :
    (getLocationFromCoordinates none "t" true true none
        (some 95) (some 0) "X" RestOutcome.ok initState).2.1 = []
    ∧ isInvalidCoordinate
        (getLocationFromCoordinates none "t" true true none
          (some 95) (some 0) "X" RestOutcome.ok initState).2.2 = true
    ∧ (getLocationFromCoordinates none "t" true true none
        (some 95) (some 0) "X" RestOutcome.ok initState).1.currentLocation
      = initState.currentLocation := by
  have h := C6_manual_position_validation none "t" true true none 95 0 "X"
    RestOutcome.ok initState (Or.inl (Or.inr (by norm_num)))
  exact ⟨h.1.1, h.1.2.1, h.1.2.2.1⟩

/-- Result of the nearby REST call as seen by `searchNearby`. -/
inductive NearbyResult where
  /-- resolved with `success` and a `data` object carrying `count` and `locations` -/
  | ok (count : Nat) (locs : List NearbyLocationItem)
  /-- resolved without success or without data: silently ignored -/
  | failResponse
  /-- rejected: the catch block shows an error toast -/
  | thrown
deriving DecidableEq, Repr

/-- `updateNearbyMarkers`: one `updateMapMarker` call per returned item
(the item location carries no accuracy or address fields). -/
def updateNearbyMarkers (mapReady : Bool) (userData : Option UserInfo) (now : String)
    (locs : List NearbyLocationItem) (s : AnalyticsState) : AnalyticsState :=
  locs.foldl
    (fun st item =>
      updateMapMarker mapReady userData now item.userId
        { latitude := item.location.latitude, longitude := item.location.longitude,
          accuracy := none, address := none }
        (some item.userType) st)
    s

/-- `searchNearby()`: guarded by `if (!currentLocation)`; without a self
position it only shows the error toast and returns - no REST query is
issued and nothing else changes.  With a self position the nearby query
is issued at the current coordinates and radius; on success the peer
list is replaced and markers are updated. -/
def searchNearby (mapReady : Bool) (userData : Option UserInfo) (now : String)
    (result : NearbyResult) (s : AnalyticsState) : AnalyticsState × List NetAction :=
  match s.currentLocation with
  | none => ({ s with toasts := s.toasts ++ [UiMessage.startTrackingFirst] }, [])
  | some c =>
    match result with
    | .ok count locs =>
      let s1 := { s with nearbyLocations := locs }
      let s2 := updateNearbyMarkers mapReady userData now locs s1
      ({ s2 with toasts := s2.toasts ++ [UiMessage.nearbyFound count] },
       [NetAction.restNearby c.latitude c.longitude s.searchRadius])
    | .failResponse => (s, [NetAction.restNearby c.latitude c.longitude s.searchRadius])
    | .thrown =>
      ({ s with toasts := s.toasts ++ [UiMessage.nearbySearchFailed] },
       [NetAction.restNearby c.latitude c.longitude s.searchRadius])

/-- C7: `searchNearby` invoked while no self position exists fails with
the NoBaselinePosition error toast, issues no proximity query, and
changes nothing but the toast list (in particular the peer set is
unchanged); whenever a self position exists, exactly one proximity query
is issued, at the stored coordinates and the configured radius. -/
theorem C7_search_nearby_requires_baseline
    (mapReady : Bool) (userData : Option UserInfo) (now : String)
    (result : NearbyResult) (s : AnalyticsState) :
    (s.currentLocation = none →
      searchNearby mapReady userData now result s
        = ({ s with toasts := s.toasts ++ [UiMessage.startTrackingFirst] }, []))
    ∧ (∀ c, s.currentLocation = some c →
        (searchNearby mapReady userData now result s).2
          = [NetAction.restNearby c.latitude c.longitude s.searchRadius]) := by
  constructor
  · intro h
    unfold searchNearby
    rw [h]
  · intro c hc
    unfold searchNearby
    rw [hc]
    cases result <;> rfl

/-- Concrete instance of `C7_search_nearby_requires_baseline`: with no
self position the call returns only the error toast and an empty query
list; with the demo active state the query is issued at (22, 88) with
radius 1000. -/
theorem C7_search_nearby_requires_baseline_witness :
    searchNearby true none "t" NearbyResult.failResponse initState
      = ({ initState with toasts := [UiMessage.startTrackingFirst] }, [])
    ∧ (searchNearby true none "t" NearbyResult.failResponse demoActiveState).2
      = [NetAction.restNearby 22 88 1000] := by
  constructor
  · have h := (C7_search_nearby_requires_baseline true none "t"
      NearbyResult.failResponse initState).1 rfl
    simpa using h
  · have h := (C7_search_nearby_requires_baseline true none "t"
      NearbyResult.failResponse demoActiveState).2
      { recordId := "u1", userId := "u1", userType := "Student",
        latitude := 22, longitude := 88, accuracy := some 15,
        address := some "A", isActive := true, lastUpdated := "t0" } rfl
    simpa using h

/-- `DEMO_TOKEN` from `src/api/config.ts` (the config version that also
declares the `LOCATION` endpoint paths). -/
def DEMO_TOKEN : String := "demo-token"

/-- `REQUEST_TIMEOUT` from `src/api/config.ts` (milliseconds). -/
def REQUEST_TIMEOUT : Nat := 30000

/-- `API_BASE_URL` from `src/api/config.ts`. -/
def API_BASE_URL : String := "https://7cvccltb-3023.inc1.devtunnels.ms"

/-- `isDemoMode()`: `!token || token === DEMO_TOKEN` over the stored
token (`none` models a missing `localStorage` entry; the empty string is
falsy). -/
def isDemoMode (token : Option String) : Bool :=
  match token with
  | none => true
  | some t => t == "" || t == DEMO_TOKEN

/-- `buildHeaders(requireAuth, contentType)`: Content-Type unless
multipart, plus the bearer header when auth is required and a truthy
non-demo token is stored. -/
def buildHeaders (requireAuth : Bool) (token : Option String)
    (contentType : String) : List (String × String) :=
  let headers :=
    if contentType != "multipart/form-data" then [("Content-Type", contentType)] else []
  if requireAuth then
    match token with
    | some t =>
      if t != "" && t != DEMO_TOKEN then
        headers ++ [("Authorization", "Bearer " ++ t)]
      else headers
    | none => headers
  else headers

/-- Kinds of JavaScript errors thrown across the fetch layer; the
`includes` substring tests of `handleNetworkError` are modelled by the
error kind. -/
inductive JsError where
  /-- the Error thrown by `fetchWithTimeout` when the abort fires
  (message `Request timeout. Please try again.`) -/
  | timeoutErr
  /-- a `Failed to fetch` connection failure -/
  | fetchFailed
  /-- any other thrown error -/
  | other (msg : String)
deriving DecidableEq, Repr

/-- An HTTP response as consumed by `handleResponse`: `ok` is
`response.ok`, `parses` is whether `response.json()` succeeds, and `msg`
is the optional `message` field of the parsed body. -/
structure HttpResponse where
  ok : Bool
  parses : Bool
  msg : Option String
deriving DecidableEq, Repr

/-- Environmental outcome of one `fetch`: a settled response, an abort
fired by the timeout timer, or a rejection. -/
inductive FetchOutcome where
  | response (ok : Bool) (parses : Bool) (msg : Option String)
  | aborted
  | failed (e : JsError)
deriving DecidableEq, Repr

/-- The `ApiResponse` shape returned by every endpoint wrapper (the
optional `data` and `errors` fields play no role in the claims and are
elided). -/
structure ApiResponse where
  success : Bool
  message : String
deriving DecidableEq, Repr

/-- The timeout applied by `fetchWithTimeout`:
`const timeout = REQUEST_TIMEOUT` when the caller passes none. -/
def effectiveTimeout (timeoutOpt : Option Nat) : Nat :=
  timeoutOpt.getD REQUEST_TIMEOUT

/-- `fetchWithTimeout`: returns the response, rethrows a timeout abort
as the fixed timeout Error, and rethrows any other failure. -/
def fetchWithTimeout (outcome : FetchOutcome) : Except JsError HttpResponse :=
  match outcome with
  | .response ok parses msg => Except.ok { ok := ok, parses := parses, msg := msg }
  | .aborted => Except.error JsError.timeoutErr
  | .failed e => Except.error e

/-- `handleResponse`: parse failure yields a recoverable failure
response; otherwise success mirrors `response.ok` with the body message
or a default. -/
def handleResponse (r : HttpResponse) : ApiResponse :=
  if !r.parses then
    { success := false, message := "Failed to parse server response" }
  else if !r.ok then
    { success := false, message := jsOrStr r.msg "An error occurred" }
  else
    { success := true, message := jsOrStr r.msg "Success" }

/-- `handleNetworkError`: maps a thrown error onto a recoverable
`success: false` response by its kind (the source tests
`message.includes`). -/
def handleNetworkError (e : JsError) : ApiResponse :=
  match e with
  | .timeoutErr =>
    { success := false,
      message := "Request timeout. Please check your connection and try again." }
  | .fetchFailed =>
    { success := false, message := "Network error. Please check your internet connection." }
  | .other _ =>
    { success := false, message := "An unexpected error occurred. Please try again." }

/-- The five operations of `locationApi`. -/
inductive LocationOp where
  | update
  | current
  | history
  | nearby
  | stop
deriving DecidableEq, Repr

/-- Endpoint path of each operation (`API_ENDPOINTS.LOCATION`; query
parameters of history and nearby are elided). -/
def locationOpPath : LocationOp → String
  | .update => "/api/location/update"
  | .current => "/api/location/current"
  | .history => "/api/location/history"
  | .nearby => "/api/location/nearby"
  | .stop => "/api/location/stop"

/-- HTTP method of each operation. -/
def locationOpMethod : LocationOp → String
  | .update => "POST"
  | .current => "GET"
  | .history => "GET"
  | .nearby => "GET"
  | .stop => "POST"

/-- The locally produced demo-mode response of each operation. -/
def demoModeResponse : LocationOp → ApiResponse
  | .update => { success := false, message := "Location tracking not available in demo mode" }
  | .current => { success := false, message := "Location not available in demo mode" }
  | .history => { success := false, message := "Location history not available in demo mode" }
  | .nearby => { success := false, message := "Nearby locations not available in demo mode" }
  | .stop => { success := true, message := "Location tracking stopped (demo mode)" }

/-- One HTTP request as issued by an endpoint wrapper (body elided). -/
structure RestRequest where
  url : String
  method : String
  headers : List (String × String)
  timeoutMs : Nat
deriving DecidableEq, Repr

/-- Body of one `locationApi` operation before its `catch` wrapper: the
demo-mode short-circuit, then the request through `fetchWithTimeout`
(no explicit timeout is passed, so `REQUEST_TIMEOUT` applies) and
`handleResponse`; a thrown error propagates.  All five operations share
this shape, differing only in path, method and demo message. -/
def locationOpUnhandled (op : LocationOp) (token : Option String)
    (outcome : FetchOutcome) : List RestRequest × Except JsError ApiResponse :=
  if isDemoMode token then ([], Except.ok (demoModeResponse op))
  else
    let req : RestRequest :=
      { url := API_BASE_URL ++ locationOpPath op,
        method := locationOpMethod op,
        headers := buildHeaders true token "application/json",
        timeoutMs := effectiveTimeout none }
    match fetchWithTimeout outcome with
    | Except.ok resp => ([req], Except.ok (handleResponse resp))
    | Except.error e => ([req], Except.error e)

/-- A `locationApi` operation as seen by callers: the surrounding
`try / catch` turns every thrown error into `handleNetworkError`, so the
operation always returns an `ApiResponse`. -/
def runLocationOp (op : LocationOp) (token : Option String)
    (outcome : FetchOutcome) : List RestRequest × ApiResponse :=
  let r := locationOpUnhandled op token outcome
  (r.1,
   match r.2 with
   | Except.ok a => a
   | Except.error e => handleNetworkError e)

/-- C8: every REST location call carries the fixed request timeout; the
catch wrapper converts every thrown failure into a recoverable
`success: false` response with a non-empty message, so no invocation
raises; in particular a timeout abort and a body-parse failure each
produce the documented recoverable failure response. -/
theorem C8_location_api_failures_recoverable
    (op : LocationOp) (token : Option String) (outcome : FetchOutcome) :
    (∀ r ∈ (runLocationOp op token outcome).1, r.timeoutMs = REQUEST_TIMEOUT)
    ∧ (∀ e, (locationOpUnhandled op token outcome).2 = Except.error e →
        (runLocationOp op token outcome).2 = handleNetworkError e
        ∧ (handleNetworkError e).success = false
        ∧ (handleNetworkError e).message ≠ "")
    ∧ (isDemoMode token = false → outcome = FetchOutcome.aborted →
        (runLocationOp op token outcome).2
          = { success := false,
              message := "Request timeout. Please check your connection and try again." })
    ∧ (isDemoMode token = false → ∀ ok m, outcome = FetchOutcome.response ok false m →
        (runLocationOp op token outcome).2
          = { success := false, message := "Failed to parse server response" }) := by
  have hne : ∀ e, (handleNetworkError e).success = false ∧ (handleNetworkError e).message ≠ "" := by
    intro e
    refine ⟨by cases e <;> rfl, ?_⟩
    cases e <;> simp [handleNetworkError]
  refine ⟨?_, ?_, ?_, ?_⟩
  · intro r hr
    by_cases hd : isDemoMode token
    · simp [runLocationOp, locationOpUnhandled, hd] at hr
    · cases outcome <;>
        simp [runLocationOp, locationOpUnhandled, hd, fetchWithTimeout] at hr <;>
        simp [hr, effectiveTimeout]
  · intro e he
    refine ⟨?_, (hne e).1, (hne e).2⟩
    simp [runLocationOp, he]
  · intro hd habort
    subst habort
    simp [runLocationOp, locationOpUnhandled, hd, fetchWithTimeout, handleNetworkError]
  · intro hd ok m hresp
    subst hresp
    simp [runLocationOp, locationOpUnhandled, hd, fetchWithTimeout, handleResponse]

/-- Concrete instance of `C8_location_api_failures_recoverable`: a
timed-out update call with a real token returns the recoverable timeout
response (and does not throw). -/
theorem C8_location_api_failures_recoverable_witness :
    (runLocationOp LocationOp.update (some "tok123") FetchOutcome.aborted).2
      = { success := false,
          message := "Request timeout. Please check your connection and try again." } := by
  have h := C8_location_api_failures_recoverable LocationOp.update (some "tok123")
    FetchOutcome.aborted
  exact h.2.2.1 (by decide) rfl

/-- C9: for every REST location call with a non-empty stored token: when
the token equals the reserved demo sentinel, no request is issued at
all, the demo-mode response is returned locally, and the headers built
for the call contain no Authorization entry; otherwise exactly one
request is issued and it carries `Authorization: Bearer token`. -/
theorem C9_demo_token_auth_header
    (op : LocationOp) (t : String) (outcome : FetchOutcome) (hne : t ≠ "") :
    (t = DEMO_TOKEN →
      (runLocationOp op (some t) outcome).1 = []
      ∧ (runLocationOp op (some t) outcome).2 = demoModeResponse op
      ∧ ∀ p ∈ buildHeaders true (some t) "application/json", p.1 ≠ "Authorization")
    ∧ (t ≠ DEMO_TOKEN →
      ∃ req, (runLocationOp op (some t) outcome).1 = [req]
        ∧ ("Authorization", "Bearer " ++ t) ∈ req.headers
        ∧ req.url = API_BASE_URL ++ locationOpPath op
        ∧ req.method = locationOpMethod op) := by
  constructor
  · intro hdt
    subst hdt
    have hd : isDemoMode (some DEMO_TOKEN) = true := by decide
    refine ⟨?_, ?_, ?_⟩
    · simp [runLocationOp, locationOpUnhandled, hd]
    · simp [runLocationOp, locationOpUnhandled, hd]
    · intro p hp
      simp [buildHeaders, DEMO_TOKEN] at hp
      simp [hp]
  · intro hnd
    have hd : isDemoMode (some t) = false := by
      simp [isDemoMode, hne, hnd]
    refine ⟨{ url := API_BASE_URL ++ locationOpPath op,
              method := locationOpMethod op,
              headers := buildHeaders true (some t) "application/json",
              timeoutMs := effectiveTimeout none }, ?_, ?_, rfl, rfl⟩
    · cases outcome <;> simp [runLocationOp, locationOpUnhandled, hd, fetchWithTimeout]
    · simp [buildHeaders, hne, hnd]

/-- Concrete instance of `C9_demo_token_auth_header`: with the demo
sentinel stored no request is issued; with the token `abc` one request
carrying `Authorization: Bearer abc` is issued. -/
theorem C9_demo_token_auth_header_witness :
    (runLocationOp LocationOp.update (some "demo-token")
      (FetchOutcome.response true true none)).1 = []
    ∧ ∃ req, (runLocationOp LocationOp.update (some "abc")
        (FetchOutcome.response true true none)).1 = [req]
      ∧ ("Authorization", "Bearer " ++ "abc") ∈ req.headers := by
  constructor
  · exact ((C9_demo_token_auth_header LocationOp.update "demo-token"
      (FetchOutcome.response true true none) (by decide)).1 rfl).1
  · obtain ⟨req, h1, h2, _, _⟩ := (C9_demo_token_auth_header LocationOp.update "abc"
      (FetchOutcome.response true true none) (by decide)).2 (by decide)
    exact ⟨req, h1, h2⟩
